import Mathlib

/-!
Verification of the homomorphic-encryption boundary layer: a shallow
embedding of the three C wrapper files (seal_wrapper.cpp,
openfhe_wrapper.cpp, helib_wrapper.cpp) and proofs about the embedded
boundary functions.

Modelling conventions:
- A C pointer argument is `Option` (none = NULL); a heap-allocated handle
  is a `Nat` address into an explicit allocation `Heap`.
- A call into the wrapped native library whose outcome the wrapper cannot
  determine is an oracle parameter of type `... → Except String ...`
  (`Except.error` = the native call threw a C++ exception).
- `COutcome.ub` marks control reaching C++ undefined behavior (null
  dereference, double free); `NativeResult.thrown` marks a C++ exception
  escaping a boundary function that does not catch it.
-/

namespace HEWrap

/-- Result of a boundary call viewed from the foreign caller: either a
normal return value, or a C++ exception that propagated out of the
`extern "C"` function (which the boundary contract forbids). -/
inductive NativeResult (α : Type) where
  | ok : α → NativeResult α
  | thrown : String → NativeResult α
deriving DecidableEq, Repr

/-- Outcome of running a C function body: a normal return, or control
reaching undefined behavior (null dereference, double free). -/
inductive COutcome (α : Type) where
  | ret : α → COutcome α
  | ub : COutcome α
deriving DecidableEq, Repr

/-- Association-list lookup by address. -/
def assocFind (p : Nat) : List (Nat × α) → Option α
  | [] => none
  | e :: tl => if e.1 = p then some e.2 else assocFind p tl

/-- The allocation state for one kind of heap object: `next` is the next
fresh address, `mem` maps live addresses to stored values. -/
structure Heap (α : Type) where
  next : Nat
  mem : List (Nat × α)
deriving DecidableEq, Repr

/-- Look up the object stored at address `p` (none = dangling). -/
def Heap.lookup (h : Heap α) (p : Nat) : Option α :=
  assocFind p h.mem

/-- `new`: allocate `v` at a fresh address. -/
def Heap.alloc (h : Heap α) (v : α) : Nat × Heap α :=
  (h.next, ⟨h.next + 1, (h.next, v) :: h.mem⟩)

/-- `delete`: free the object at address `p`. -/
def Heap.free (h : Heap α) (p : Nat) : Heap α :=
  ⟨h.next, h.mem.filter (fun e => decide (e.1 ≠ p))⟩

/-- Well-formedness: every live address was handed out by the allocator. -/
def Heap.wf (h : Heap α) : Bool :=
  h.mem.all (fun e => decide (e.1 < h.next))

/-- The body `if (x) delete x;` shared by every destroy function of the
three wrappers: NULL is a no-op; deleting a live handle frees it; deleting
a dangling handle is undefined behavior (double free). -/
def destroyHandle (ptr : Option Nat) (h : Heap α) : COutcome (Heap α) :=
  match ptr with
  | none => COutcome.ret h
  | some p =>
      if (Heap.lookup h p).isSome then COutcome.ret (Heap.free h p)
      else COutcome.ub

/-- Iterate a destroy-style call `n` times, stopping at the first fault. -/
def iterNull (d : Heap α → COutcome (Heap α)) : Nat → Heap α → COutcome (Heap α)
  | 0, h => COutcome.ret h
  | n + 1, h =>
      match d h with
      | COutcome.ret h2 => iterNull d n h2
      | COutcome.ub => COutcome.ub

/-! ## SEAL wrapper (seal_wrapper.cpp) -/

/-- `struct SEALContextWrapper`: holds the SEALContext, the KeyGenerator
and the key pair created at context-creation time.  The context and
keygen objects are abstracted away; the stored public/secret key material
is modelled by opaque identifiers. -/
structure SEALContextWrapper where
  public_key : Nat
  secret_key : Nat
deriving DecidableEq, Repr

/-- `struct SEALEncryptor`: records which public key the native
`Encryptor` was constructed from. -/
structure SEALEncryptor where
  fromPublicKey : Nat
deriving DecidableEq, Repr

/-- `struct SEALDecryptor`: records which secret key the native
`Decryptor` was constructed from. -/
structure SEALDecryptor where
  fromSecretKey : Nat
deriving DecidableEq, Repr

/-- `struct SEALBatchEncoder`: a BatchEncoder is characterised by its
slot count and the plaintext modulus of its context. -/
structure SEALBatchEncoder where
  slot_count : Nat
  plain_modulus : Nat
deriving DecidableEq, Repr

/-- `struct SEALPlaintext` at the batching level of abstraction: the
vector of slot values the plaintext decodes to. -/
structure SEALPlaintext where
  coeffs : List Int
deriving DecidableEq, Repr

/-- `struct SEALCiphertext`: abstract encrypted payload. -/
structure SEALCiphertext where
  data : List Int
deriving DecidableEq, Repr

/-- Model of the native `BatchEncoder::encode` (SEAL): throws
`invalid_argument` when the input vector is longer than `slot_count`,
throws when an entry's magnitude exceeds `plain_modulus/2`, and otherwise
packs the vector, zero-filling the remaining slots. -/
def sealEncodeNative (enc : SEALBatchEncoder) (v : List Int) : Except String (List Int) :=
  if enc.slot_count < v.length then
    Except.error ("values_matrix size is too large")
  else if v.any (fun x => decide (enc.plain_modulus / 2 < x.natAbs)) then
    Except.error ("input value is larger than plain_modulus")
  else
    Except.ok (v ++ List.replicate (enc.slot_count - v.length) 0)

/-- Model of the native `BatchEncoder::decode` on a plaintext that was
produced by batch encoding under the same encoder: it succeeds and
returns the full slot vector. -/
def sealDecodeNative (plain : SEALPlaintext) : Except String (List Int) :=
  Except.ok plain.coeffs

/-- `seal_batch_encode(encoder, values, values_size)`: NULL encoder or
values → nullptr; otherwise encode, converting a native throw to
nullptr. -/
def seal_batch_encode (encoder : Option SEALBatchEncoder)
    (values : Option (List Int)) : Option SEALPlaintext :=
  match encoder, values with
  | some enc, some v =>
      match sealEncodeNative enc v with
      | Except.ok coeffs => some ⟨coeffs⟩
      | Except.error _ => none
  | _, _ => none

/-- `seal_batch_decode(encoder, plain, output, output_size)`.
`decodeNative` stands for `BatchEncoder::decode` (it may throw on a
plaintext that is invalid for the encoder's context).  `outputNonNull`
models the `output` buffer pointer, `output_size` the in/out size
pointer.  Result: `none` = returned without writing anything (a NULL
argument); `some (written, n)` = the elements written to the buffer and
the value stored back through `output_size`.  The catch-all handler
stores 0 through `output_size`. -/
def seal_batch_decode (decodeNative : SEALPlaintext → Except String (List Int))
    (encoder : Option SEALBatchEncoder) (plain : Option SEALPlaintext)
    (outputNonNull : Bool) (output_size : Option Nat) :
    Option (List Int × Nat) :=
  match encoder, plain, outputNonNull, output_size with
  | some _, some p, true, some cap =>
      match decodeNative p with
      | Except.ok vec =>
          some (vec.take (min vec.length cap), min vec.length cap)
      | Except.error _ => some ([], 0)
  | _, _, _, _ => none

/-- `seal_get_slot_count(encoder)`. -/
def seal_get_slot_count (encoder : Option SEALBatchEncoder) : Nat :=
  match encoder with
  | none => 0
  | some enc => enc.slot_count

/-- `seal_create_encryptor(ctx, public_key, public_key_size)`: the byte
array and its size are accepted but never read; the native `Encryptor`
is built from `ctx->seal_context` and `ctx->public_key`. -/
def seal_create_encryptor (ctx : Option SEALContextWrapper)
    (public_key : List Nat) (public_key_size : Nat) : Option SEALEncryptor :=
  match ctx with
  | none => none
  | some c => some ⟨c.public_key⟩

/-- `seal_create_decryptor(ctx, secret_key, secret_key_size)`: the byte
array and its size are accepted but never read; the native `Decryptor`
is built from `ctx->seal_context` and `ctx->secret_key`. -/
def seal_create_decryptor (ctx : Option SEALContextWrapper)
    (secret_key : List Nat) (secret_key_size : Nat) : Option SEALDecryptor :=
  match ctx with
  | none => none
  | some c => some ⟨c.secret_key⟩

/-- `seal_create_plaintext(hex_string)`: the body has NO null check; the
`char*` is handed straight to the native `Plaintext(std::string)`
constructor, and constructing `std::string` from a null pointer is
undefined behavior.  For a non-null string, a native parse failure is
caught and converted to nullptr. -/
def seal_create_plaintext (parseNative : String → Except String SEALPlaintext)
    (hex_string : Option String) : COutcome (Option SEALPlaintext) :=
  match hex_string with
  | none => COutcome.ub
  | some s =>
      match parseNative s with
      | Except.ok p => COutcome.ret (some p)
      | Except.error _ => COutcome.ret none

/-- `seal_ciphertext_byte_count(cipher)`: NULL → 0, otherwise calls the
native `Ciphertext::save_size()` with NO try/catch around it, so a
native throw (`saveSize` returning `Except.error`) escapes the
boundary. -/
def seal_ciphertext_byte_count (saveSize : SEALCiphertext → Except String Nat)
    (cipher : Option SEALCiphertext) : NativeResult Nat :=
  match cipher with
  | none => NativeResult.ok 0
  | some c =>
      match saveSize c with
      | Except.ok n => NativeResult.ok n
      | Except.error e => NativeResult.thrown e

/-- Shared body of the binary homomorphic operations
(`seal_add`/`seal_multiply`, `helib_add`/`helib_multiply`/`helib_subtract`):
check the operand handles, allocate a fresh result object, run the native
operation writing into the fresh object only.  A native throw is caught
and converted to nullptr, but the already-allocated result object leaks
(stays live, holding the default value `emptyVal`).  A non-null dangling
operand is dereferenced: undefined behavior. -/
def binOpFresh (op : α → α → Except String α) (emptyVal : α)
    (a b : Option Nat) (h : Heap α) : COutcome (Option Nat × Heap α) :=
  match a, b with
  | some pa, some pb =>
      match Heap.lookup h pa, Heap.lookup h pb with
      | some va, some vb =>
          match op va vb with
          | Except.ok v => COutcome.ret (some h.next, (Heap.alloc h v).2)
          | Except.error _ => COutcome.ret (none, (Heap.alloc h emptyVal).2)
      | _, _ => COutcome.ub
  | _, _ => COutcome.ret (none, h)

/-- `seal_add(ctx, a, b)`: NULL check on all three handles, then
`evaluator.add(a->ciphertext, b->ciphertext, result->ciphertext)` into a
freshly allocated `SEALCiphertext`.  `addNative` stands for
`Evaluator::add`. -/
def seal_add (addNative : SEALCiphertext → SEALCiphertext → Except String SEALCiphertext)
    (ctx : Option SEALContextWrapper) (a b : Option Nat)
    (h : Heap SEALCiphertext) : COutcome (Option Nat × Heap SEALCiphertext) :=
  match ctx with
  | none => COutcome.ret (none, h)
  | some _ => binOpFresh addNative ⟨[]⟩ a b h

/-- `seal_multiply(ctx, a, b)`: same shape as `seal_add` with
`Evaluator::multiply`. -/
def seal_multiply (mulNative : SEALCiphertext → SEALCiphertext → Except String SEALCiphertext)
    (ctx : Option SEALContextWrapper) (a b : Option Nat)
    (h : Heap SEALCiphertext) : COutcome (Option Nat × Heap SEALCiphertext) :=
  match ctx with
  | none => COutcome.ret (none, h)
  | some _ => binOpFresh mulNative ⟨[]⟩ a b h

/-- `seal_rotate_rows(ctx, cipher, steps, galois_keys)`: NULL check on
ctx, cipher and galois_keys, then `Evaluator::rotate_rows` into a freshly
allocated result ciphertext. -/
def seal_rotate_rows (rotNative : Int → SEALCiphertext → Except String SEALCiphertext)
    (ctx : Option SEALContextWrapper) (cipher : Option Nat) (steps : Int)
    (galois_keys : Option Unit) (h : Heap SEALCiphertext) :
    COutcome (Option Nat × Heap SEALCiphertext) :=
  match ctx, cipher, galois_keys with
  | some _, some pc, some _ =>
      match Heap.lookup h pc with
      | some vc =>
          match rotNative steps vc with
          | Except.ok v => COutcome.ret (some h.next, (Heap.alloc h v).2)
          | Except.error _ => COutcome.ret (none, (Heap.alloc h ⟨[]⟩).2)
      | none => COutcome.ub
  | _, _, _ => COutcome.ret (none, h)

/-- `seal_destroy_context(ctx)`: `if (ctx) delete ctx;` -/
def seal_destroy_context (ctx : Option Nat) (h : Heap SEALContextWrapper) :
    COutcome (Heap SEALContextWrapper) :=
  destroyHandle ctx h

/-- `seal_destroy_encryptor(enc)`: `if (enc) delete enc;` -/
def seal_destroy_encryptor (enc : Option Nat) (h : Heap SEALEncryptor) :
    COutcome (Heap SEALEncryptor) :=
  destroyHandle enc h

/-- `seal_destroy_decryptor(dec)`: `if (dec) delete dec;` -/
def seal_destroy_decryptor (dec : Option Nat) (h : Heap SEALDecryptor) :
    COutcome (Heap SEALDecryptor) :=
  destroyHandle dec h

/-- `seal_destroy_batch_encoder(encoder)`: `if (encoder) delete encoder;` -/
def seal_destroy_batch_encoder (encoder : Option Nat) (h : Heap SEALBatchEncoder) :
    COutcome (Heap SEALBatchEncoder) :=
  destroyHandle encoder h

/-- `seal_destroy_galois_keys(keys)`: `if (keys) delete keys;` -/
def seal_destroy_galois_keys (keys : Option Nat) (h : Heap Unit) :
    COutcome (Heap Unit) :=
  destroyHandle keys h

/-- `seal_destroy_plaintext(plain)`: `if (plain) delete plain;` -/
def seal_destroy_plaintext (plain : Option Nat) (h : Heap SEALPlaintext) :
    COutcome (Heap SEALPlaintext) :=
  destroyHandle plain h

/-- `seal_destroy_ciphertext(cipher)`: `if (cipher) delete cipher;` -/
def seal_destroy_ciphertext (cipher : Option Nat) (h : Heap SEALCiphertext) :
    COutcome (Heap SEALCiphertext) :=
  destroyHandle cipher h

/-! ## OpenFHE wrapper (openfhe_wrapper.cpp)

The OpenFHE wrapper additionally threads a `thread_local std::string
last_error`; each modelled function takes the current string and returns
the updated one, so a sequence of calls is explicit state passing. -/

/-- `struct OpenFHEContext`: the underlying `CryptoContext` is modelled
by the parameters the claims need — its packing slot capacity, its
plaintext modulus, and whether `EvalMultKeyGen` has registered
multiplication keys into its evaluation state. -/
structure OpenFHEContext where
  slotCapacity : Nat
  plaintextModulus : Nat
  evalMultKeysRegistered : Bool
deriving DecidableEq, Repr

/-- `struct OpenFHEKeyPair`: the key pair plus the back-reference to the
parent context (`kp->ctx = ctx`, non-owning). -/
structure OpenFHEKeyPair where
  publicKeyId : Nat
  secretKeyId : Nat
deriving DecidableEq, Repr

/-- `struct OpenFHEPlaintext`: the packed value vector stored in the
native `Plaintext` (what `GetPackedValue()` returns). -/
structure OpenFHEPlaintext where
  values : List Int
deriving DecidableEq, Repr

/-- `openfhe_get_last_error()`: returns the current thread-local string,
without modifying it. -/
def openfhe_get_last_error (last_error : String) : String :=
  last_error

/-- `openfhe_create_bfv_context(plaintext_modulus, multiplicative_depth)`:
`genNative` stands for `GenCryptoContext` + the three `Enable` calls (it
yields the slot capacity derived from the generated parameters).  Success
stores the context (no eval-mult keys registered yet) and clears
`last_error`; a native throw is caught, sets a descriptive message and
returns nullptr. -/
def openfhe_create_bfv_context (genNative : Except String Nat)
    (plaintext_modulus : Nat) (multiplicative_depth : Nat)
    (last_error : String) : Option OpenFHEContext × String :=
  match genNative with
  | Except.ok slots =>
      (some ⟨slots, plaintext_modulus, false⟩, "")
  | Except.error e =>
      (none, "Failed to create context: " ++ e)

/-- `openfhe_destroy_context(ctx)`: `if (ctx) { delete ctx; }` — note it
never touches `last_error`. -/
def openfhe_destroy_context (ctx : Option Nat) (h : Heap OpenFHEContext)
    (last_error : String) : COutcome (Heap OpenFHEContext) × String :=
  (destroyHandle ctx h, last_error)

/-- `openfhe_generate_keypair(ctx)`: NULL ctx → set "Invalid context",
return nullptr.  Otherwise `KeyGen()` followed by
`EvalMultKeyGen(secretKey)` (both inside the try); on success the
eval-mult keys are registered into the context's evaluation state as a
side effect, the key pair is returned and `last_error` is cleared; a
native throw sets a descriptive message and returns nullptr.  The result
triple is (returned key pair, updated context state, updated
last_error). -/
def openfhe_generate_keypair (keyGenNative : Except String OpenFHEKeyPair)
    (ctx : Option OpenFHEContext) (last_error : String) :
    Option OpenFHEKeyPair × Option OpenFHEContext × String :=
  match ctx with
  | none => (none, none, "Invalid context")
  | some c =>
      match keyGenNative with
      | Except.ok kp =>
          (some kp, some { c with evalMultKeysRegistered := true }, "")
      | Except.error e =>
          (none, some c, "Failed to generate keys: " ++ e)

/-- `openfhe_destroy_keypair(keypair)`: `if (keypair) { delete keypair; }`
— never touches `last_error`. -/
def openfhe_destroy_keypair (keypair : Option Nat) (h : Heap OpenFHEKeyPair)
    (last_error : String) : COutcome (Heap OpenFHEKeyPair) × String :=
  (destroyHandle keypair h, last_error)

/-- Model of the native `MakePackedPlaintext` (OpenFHE): throws when the
vector is longer than the context's packing capacity or an entry's
magnitude exceeds `plaintextModulus/2`; otherwise stores the value
vector. -/
def openfheMakePackedNative (c : OpenFHEContext) (v : List Int) :
    Except String (List Int) :=
  if c.slotCapacity < v.length then
    Except.error ("input vector is longer than the packing capacity")
  else if v.any (fun x => decide (c.plaintextModulus / 2 < x.natAbs)) then
    Except.error ("cannot encode an integer larger than plaintext modulus")
  else
    Except.ok v

/-- `openfhe_create_plaintext(ctx, values, length)`: NULL ctx or values →
"Invalid parameters" + nullptr, before any native call.  Otherwise
`MakePackedPlaintext`; success clears `last_error`, a native throw sets a
descriptive message and returns nullptr. -/
def openfhe_create_plaintext (ctx : Option OpenFHEContext)
    (values : Option (List Int)) (last_error : String) :
    Option OpenFHEPlaintext × String :=
  match ctx, values with
  | some c, some v =>
      match openfheMakePackedNative c v with
      | Except.ok stored => (some ⟨stored⟩, "")
      | Except.error e => (none, "Failed to create plaintext: " ++ e)
  | _, _ => (none, "Invalid parameters")

/-- `openfhe_destroy_plaintext(plain)`: `if (plain) { delete plain; }` —
never touches `last_error`. -/
def openfhe_destroy_plaintext (plain : Option Nat) (h : Heap OpenFHEPlaintext)
    (last_error : String) : COutcome (Heap OpenFHEPlaintext) × String :=
  (destroyHandle plain h, last_error)

/-- `openfhe_get_plaintext_values(plain, out_values, out_length)`: NULL
argument → "Invalid parameters", `false`, nothing written.  Otherwise
`GetPackedValue()` (which, for plaintexts built by
`openfhe_create_plaintext`, simply returns the stored vector), copy
`min(*out_length, vec.size())` elements, store the copied count through
`out_length`, clear `last_error` and return `true`.  Result:
(written elements and new `*out_length` when a write happened, the
boolean return, the new `last_error`). -/
def openfhe_get_plaintext_values (plain : Option OpenFHEPlaintext)
    (outValuesNonNull : Bool) (out_length : Option Nat) (last_error : String) :
    Option (List Int × Nat) × Bool × String :=
  match plain, outValuesNonNull, out_length with
  | some p, true, some cap =>
      let vec := p.values
      (some (vec.take (min cap vec.length), min cap vec.length), true, "")
  | _, _, _ => (none, false, "Invalid parameters")

/-! ## HElib wrapper (helib_wrapper.cpp) -/

/-- `struct HElibContext`: the BGV context built by `ContextBuilder`;
abstracted to an opaque identifier (none of the claims depend on its
internals). -/
structure HElibContext where
  ctxId : Nat
deriving DecidableEq, Repr

/-- `struct HElibSecretKey`: the generated secret key, recording whether
`addSome1DMatrices` has added the key-switching matrices that
multiplication requires. -/
structure HElibSecretKey where
  keyId : Nat
  keySwitchMatricesAdded : Bool
deriving DecidableEq, Repr

/-- `struct HElibPublicKey`: a non-owning view of the secret key
(`pk->publicKey = sk->secretKey.get()`). -/
structure HElibPublicKey where
  viewOfKeyId : Nat
deriving DecidableEq, Repr

/-- `struct HElibPlaintext`: `long value;` — a single integer, no
encoding. -/
structure HElibPlaintext where
  value : Int
deriving DecidableEq, Repr

/-- `struct HElibCiphertext`: abstract encrypted payload. -/
structure HElibCiphertext where
  data : List Int
deriving DecidableEq, Repr

/-- `helib_create_context(m, p, r)`: `buildNative` stands for the
`ContextBuilder<BGV>` chain; a native throw is caught (logged to stderr)
and converted to nullptr. -/
def helib_create_context (buildNative : Except String HElibContext)
    (m : Nat) (p : Nat) (r : Nat) : Option HElibContext :=
  match buildNative with
  | Except.ok c => some c
  | Except.error _ => none

/-- `helib_generate_secret_key(ctx)`: NULL ctx → nullptr.  Otherwise
`GenSecKey()` followed by `addSome1DMatrices(*sk->secretKey)` (both in
the try), so a successfully returned secret key always carries the
key-switching matrices; a native throw is caught (logged) and converted
to nullptr. -/
def helib_generate_secret_key (genNative : Except String Nat)
    (ctx : Option HElibContext) : Option HElibSecretKey :=
  match ctx with
  | none => none
  | some _ =>
      match genNative with
      | Except.ok k => some ⟨k, true⟩
      | Except.error _ => none

/-- `helib_get_public_key(sk)`: NULL sk → nullptr; otherwise a non-owning
view of the same key material. -/
def helib_get_public_key (sk : Option HElibSecretKey) : Option HElibPublicKey :=
  match sk with
  | none => none
  | some s => some ⟨s.keyId⟩

/-- `helib_create_plaintext(ctx, value)`: allocates a `HElibPlaintext`
holding exactly `value`; the `ctx` argument is accepted but never read,
and there is no failure path besides allocation failure. -/
def helib_create_plaintext (ctx : Option HElibContext) (value : Int) :
    Option HElibPlaintext :=
  some ⟨value⟩

/-- `helib_plaintext_to_long(plain)`: NULL → 0, otherwise the stored
value. -/
def helib_plaintext_to_long (plain : Option HElibPlaintext) : Int :=
  match plain with
  | none => 0
  | some p => p.value

/-- `helib_add(a, b)`: copy the first ciphertext into a freshly allocated
result, then `+=` the second; `addNative` covers the copy plus the
native addition. -/
def helib_add (addNative : HElibCiphertext → HElibCiphertext → Except String HElibCiphertext)
    (a b : Option Nat) (h : Heap HElibCiphertext) :
    COutcome (Option Nat × Heap HElibCiphertext) :=
  binOpFresh addNative ⟨[]⟩ a b h

/-- `helib_multiply(a, b)`: copy the first ciphertext into a freshly
allocated result, then `*=` the second. -/
def helib_multiply (mulNative : HElibCiphertext → HElibCiphertext → Except String HElibCiphertext)
    (a b : Option Nat) (h : Heap HElibCiphertext) :
    COutcome (Option Nat × Heap HElibCiphertext) :=
  binOpFresh mulNative ⟨[]⟩ a b h

/-- `helib_subtract(a, b)`: copy the first ciphertext into a freshly
allocated result, then `-=` the second. -/
def helib_subtract (subNative : HElibCiphertext → HElibCiphertext → Except String HElibCiphertext)
    (a b : Option Nat) (h : Heap HElibCiphertext) :
    COutcome (Option Nat × Heap HElibCiphertext) :=
  binOpFresh subNative ⟨[]⟩ a b h

/-- `helib_destroy_context(ctx)`: `if (ctx) delete ctx;` -/
def helib_destroy_context (ctx : Option Nat) (h : Heap HElibContext) :
    COutcome (Heap HElibContext) :=
  destroyHandle ctx h

/-- `helib_destroy_secret_key(sk)`: `if (sk) delete sk;` -/
def helib_destroy_secret_key (sk : Option Nat) (h : Heap HElibSecretKey) :
    COutcome (Heap HElibSecretKey) :=
  destroyHandle sk h

/-- `helib_destroy_public_key(pk)`: `if (pk) delete pk;` -/
def helib_destroy_public_key (pk : Option Nat) (h : Heap HElibPublicKey) :
    COutcome (Heap HElibPublicKey) :=
  destroyHandle pk h

/-- `helib_destroy_plaintext(plain)`: `if (plain) delete plain;` -/
def helib_destroy_plaintext (plain : Option Nat) (h : Heap HElibPlaintext) :
    COutcome (Heap HElibPlaintext) :=
  destroyHandle plain h

/-- `helib_destroy_ciphertext(cipher)`: `if (cipher) delete cipher;` -/
def helib_destroy_ciphertext (cipher : Option Nat) (h : Heap HElibCiphertext) :
    COutcome (Heap HElibCiphertext) :=
  destroyHandle cipher h

/-! ## Library-requirement models

These model the wrapped libraries' documented contract that the claims
about key material refer to; the boundary code itself only makes the
registration calls. -/

/-- Modelled from the wrapped library's contract (and the spec:
"downstream multiply operations assume it is already present"):
OpenFHE's `EvalMult` finds its relinearization keys in the context's
evaluation state, so multiplication succeeds-for-keys exactly when
`EvalMultKeyGen` has registered them. -/
def openfheEvalMultKeysAvailable (c : OpenFHEContext) : Bool :=
  c.evalMultKeysRegistered

/-- Modelled from the wrapped library's contract: HElib ciphertext
multiplication relinearizes using the key-switching matrices attached to
the secret key by `addSome1DMatrices`. -/
def helibMultKeysAvailable (sk : HElibSecretKey) : Bool :=
  sk.keySwitchMatricesAdded

/-! ## Concrete sample values (used by witnesses and counterexamples) -/

/-- A small batch encoder: 4 slots, plaintext modulus 17. -/
def encoder17 : SEALBatchEncoder := ⟨4, 17⟩

/-- A small OpenFHE context: capacity 4, plaintext modulus 17, no eval
keys registered. -/
def ofContext17 : OpenFHEContext := ⟨4, 17, false⟩

/-- A sample SEAL ciphertext value. -/
def ct0 : SEALCiphertext := ⟨[0]⟩

/-- A two-object ciphertext heap: addresses 0 and 1 live. -/
def ctHeap2 : Heap SEALCiphertext := ⟨2, [(0, ⟨[1]⟩), (1, ⟨[2]⟩)]⟩

/-- A two-object HElib ciphertext heap: addresses 0 and 1 live. -/
def helibCtHeap2 : Heap HElibCiphertext := ⟨2, [(0, ⟨[1]⟩), (1, ⟨[2]⟩)]⟩

/-- An OpenFHE context heap with one live context at address 0. -/
def ofCtxHeap1 : Heap OpenFHEContext := ⟨1, [(0, ofContext17)]⟩

/-- A sample SEAL context wrapper. -/
def sealCtx0 : SEALContextWrapper := ⟨10, 11⟩

/-! ## Helper lemmas -/

theorem assocFind_lt {α : Type} (mem : List (Nat × α)) (next p : Nat) (v : α)
    (hall : mem.all (fun e => decide (e.1 < next)) = true)
    (hfind : assocFind p mem = some v) : p < next := by
  induction mem with
  | nil => exact absurd hfind (by simp [assocFind])
  | cons e tl ih =>
      rw [List.all_cons, Bool.and_eq_true] at hall
      unfold assocFind at hfind
      by_cases hp : e.1 = p
      · have := of_decide_eq_true hall.1
        omega
      · rw [if_neg hp] at hfind
        exact ih hall.2 hfind

theorem Heap.lookup_lt_next {α : Type} (h : Heap α) (p : Nat) (v : α)
    (hwf : h.wf = true) (hl : h.lookup p = some v) : p < h.next :=
  assocFind_lt h.mem h.next p v hwf hl

theorem Heap.lookup_alloc_ne {α : Type} (h : Heap α) (v : α) (p : Nat)
    (hne : p ≠ h.next) : ((Heap.alloc h v).2).lookup p = h.lookup p := by
  show assocFind p ((h.next, v) :: h.mem) = assocFind p h.mem
  simp only [assocFind]
  exact if_neg (fun hh => hne (Eq.symm hh))

theorem binOpFresh_frame {α : Type} (op : α → α → Except String α) (emptyVal : α)
    (pa pb : Nat) (va vb v : α) (h : Heap α)
    (hwf : h.wf = true)
    (ha : h.lookup pa = some va) (hb : h.lookup pb = some vb)
    (hop : op va vb = Except.ok v) :
    binOpFresh op emptyVal (some pa) (some pb) h
      = COutcome.ret (some h.next, (Heap.alloc h v).2)
    ∧ h.next ≠ pa ∧ h.next ≠ pb
    ∧ ((Heap.alloc h v).2).lookup pa = some va
    ∧ ((Heap.alloc h v).2).lookup pb = some vb := by
  have hpa := Heap.lookup_lt_next h pa va hwf ha
  have hpb := Heap.lookup_lt_next h pb vb hwf hb
  refine ⟨?_, by omega, by omega, ?_, ?_⟩
  · simp only [binOpFresh, ha, hb, hop]
  · rw [Heap.lookup_alloc_ne h v pa (by omega)]; exact ha
  · rw [Heap.lookup_alloc_ne h v pb (by omega)]; exact hb

theorem take_length_append {α : Type} (l r : List α) : (l ++ r).take l.length = l := by
  induction l with
  | nil => rfl
  | cons a tl ih => simp [List.take, ih]

theorem appendNeEmpty (s t : String) (hs : s.data ≠ []) : s ++ t ≠ "" := by
  intro h
  apply hs
  have h2 : (s ++ t).data = ([] : List Char) := by rw [h]
  rw [String.data_append] at h2
  exact (List.append_eq_nil.mp h2).1

/-! ## Claim theorems -/

/-- Claim C1: for non-null encoder, plaintext, output buffer and size
pointer, `seal_batch_decode` and `openfhe_get_plaintext_values` write at
most the incoming capacity into the buffer and store the number actually
written back through the size pointer; when the decoded length exceeds
the capacity, exactly the first `capacity` elements are written and the
rest is dropped without an error (SEAL's catch path stores 0; OpenFHE's
success path returns `true` with a cleared error string). -/
theorem c1_decode_respects_capacity :
    (∀ (enc : SEALBatchEncoder) (coeffs : List Int) (cap : Nat),
        seal_batch_decode sealDecodeNative (some enc) (some ⟨coeffs⟩) true (some cap)
          = some (coeffs.take (min coeffs.length cap), min coeffs.length cap)
        ∧ min coeffs.length cap ≤ cap
        ∧ (coeffs.take (min coeffs.length cap)).length = min coeffs.length cap)
    ∧ (∀ (enc : SEALBatchEncoder) (p : SEALPlaintext) (cap : Nat) (e : String),
        seal_batch_decode (fun _ => Except.error e) (some enc) (some p) true (some cap)
          = some ([], 0))
    ∧ (∀ (vals : List Int) (cap : Nat) (s : String),
        openfhe_get_plaintext_values (some ⟨vals⟩) true (some cap) s
          = (some (vals.take (min cap vals.length), min cap vals.length), true, "")
        ∧ min cap vals.length ≤ cap
        ∧ (vals.take (min cap vals.length)).length = min cap vals.length) := by
  refine ⟨fun enc coeffs cap => ⟨rfl, Nat.min_le_right _ _, ?_⟩,
          fun enc p cap e => rfl,
          fun vals cap s => ⟨rfl, Nat.min_le_left _ _, ?_⟩⟩
  · rw [List.length_take]; omega
  · rw [List.length_take]; omega

/-- Claim C2 (counterexample): the round trip fails as stated.  With a
4-slot encoder over plaintext modulus 17 and `v = [100]` (length 1 ≤ 4),
the native encode throws because `100 > 17/2`, so no plaintext is
produced at all — `decode(encode(v)) = v` cannot hold. -/
theorem c2_roundtrip_counterexample :
    List.length [(100 : Int)] ≤ encoder17.slot_count
    ∧ ¬ ∃ p : SEALPlaintext,
        seal_batch_encode (some encoder17) (some [(100 : Int)]) = some p
        ∧ seal_batch_decode sealDecodeNative (some encoder17) (some p) true (some 1)
            = some ([(100 : Int)], 1) := by
  refine ⟨by decide, ?_⟩
  rintro ⟨p, hp, -⟩
  rw [show seal_batch_encode (some encoder17) (some [(100 : Int)]) = none from rfl] at hp
  exact Option.noConfusion hp

/-- Claim C2 (amended): the round trip holds for every integer sequence
`v` with `len(v) ≤ slot_count` whose entries additionally fit the
scheme's plaintext range (magnitude at most `plain_modulus / 2`):
encoding then decoding with a caller buffer of capacity `len(v)` yields
exactly `v`, for both the SEAL batch path and the OpenFHE packed path. -/
theorem c2_roundtrip_amended :
    (∀ (enc : SEALBatchEncoder) (v : List Int),
        v.length ≤ enc.slot_count →
        (∀ x ∈ v, x.natAbs ≤ enc.plain_modulus / 2) →
        ∃ p : SEALPlaintext,
          seal_batch_encode (some enc) (some v) = some p
          ∧ seal_batch_decode sealDecodeNative (some enc) (some p) true (some v.length)
              = some (v, v.length))
    ∧ (∀ (c : OpenFHEContext) (v : List Int) (s : String),
        v.length ≤ c.slotCapacity →
        (∀ x ∈ v, x.natAbs ≤ c.plaintextModulus / 2) →
        ∃ pl : OpenFHEPlaintext,
          openfhe_create_plaintext (some c) (some v) s = (some pl, "")
          ∧ openfhe_get_plaintext_values (some pl) true (some v.length) ""
              = (some (v, v.length), true, "")) := by
  constructor
  · intro enc v hlen hrange
    have hany : (v.any fun x => decide (enc.plain_modulus / 2 < x.natAbs)) = false := by
      by_contra hc
      rw [Bool.not_eq_false, List.any_eq_true] at hc
      obtain ⟨x, hx, hdec⟩ := hc
      exact absurd (of_decide_eq_true hdec) (Nat.not_lt.mpr (hrange x hx))
    have henc : sealEncodeNative enc v
        = Except.ok (v ++ List.replicate (enc.slot_count - v.length) 0) := by
      unfold sealEncodeNative
      rw [if_neg (Nat.not_lt.mpr hlen), if_neg (by simp [hany])]
    refine ⟨⟨v ++ List.replicate (enc.slot_count - v.length) 0⟩, ?_, ?_⟩
    · show seal_batch_encode (some enc) (some v) = _
      unfold seal_batch_encode
      simp only [henc]
    · have hclen : (v ++ List.replicate (enc.slot_count - v.length) 0).length
          = enc.slot_count := by
        rw [List.length_append, List.length_replicate]; omega
      have hmin : min (v ++ List.replicate (enc.slot_count - v.length) 0).length v.length
          = v.length := by
        rw [hclen]; omega
      show seal_batch_decode sealDecodeNative (some enc) _ true (some v.length) = _
      unfold seal_batch_decode sealDecodeNative
      simp only [hmin]
      rw [take_length_append]
  · intro c v s hlen hrange
    have hany : (v.any fun x => decide (c.plaintextModulus / 2 < x.natAbs)) = false := by
      by_contra hc
      rw [Bool.not_eq_false, List.any_eq_true] at hc
      obtain ⟨x, hx, hdec⟩ := hc
      exact absurd (of_decide_eq_true hdec) (Nat.not_lt.mpr (hrange x hx))
    have hmk : openfheMakePackedNative c v = Except.ok v := by
      unfold openfheMakePackedNative
      rw [if_neg (Nat.not_lt.mpr hlen), if_neg (by simp [hany])]
    refine ⟨⟨v⟩, ?_, ?_⟩
    · show openfhe_create_plaintext (some c) (some v) s = _
      unfold openfhe_create_plaintext
      simp only [hmk]
    · show openfhe_get_plaintext_values (some ⟨v⟩) true (some v.length) "" = _
      unfold openfhe_get_plaintext_values
      simp only [Nat.min_self, List.take_length]

/-- Claim C2 (witness for the amended theorem): concrete instances of
both round trips. -/
theorem c2_roundtrip_witness :
    (∃ p : SEALPlaintext,
      seal_batch_encode (some encoder17) (some [1, 2, 3]) = some p
      ∧ seal_batch_decode sealDecodeNative (some encoder17) (some p) true (some 3)
          = some ([1, 2, 3], 3))
    ∧ (∃ pl : OpenFHEPlaintext,
      openfhe_create_plaintext (some ofContext17) (some [1, 2]) "x" = (some pl, "")
      ∧ openfhe_get_plaintext_values (some pl) true (some 2) ""
          = (some ([1, 2], 2), true, "")) :=
  ⟨c2_roundtrip_amended.1 encoder17 [1, 2, 3] (by decide) (by decide),
   c2_roundtrip_amended.2 ofContext17 [1, 2] "x" (by decide) (by decide)⟩

/-- Claim C3 (counterexample): `seal_ciphertext_byte_count` calls the
native `Ciphertext::save_size()` with no try/catch around it, so a throw
from the wrapped library propagates out of the boundary function instead
of being converted to the failure convention. -/
theorem c3_exception_escape_counterexample :
    seal_ciphertext_byte_count (fun _ => Except.error ("size does not fit")) (some ct0)
      = NativeResult.thrown ("size does not fit")
    ∧ ∀ n : Nat,
        (NativeResult.thrown ("size does not fit") : NativeResult Nat)
          ≠ NativeResult.ok n :=
  ⟨rfl, fun n h => NativeResult.noConfusion h⟩

/-- Claim C3 (amended): every boundary function whose body is wrapped in
try/catch converts a native throw into the subsystem's failure
convention (null handle for SEAL and HElib; null handle plus non-empty
last-error message for OpenFHE; `*output_size = 0` for the decode path)
— but the unguarded SEAL inspection accessors (`seal_ciphertext_byte_count`
in particular) let a native throw escape. -/
theorem c3_boundary_conversion_amended :
    (∀ (e : String) (m p r : Nat),
        helib_create_context (Except.error e) m p r = none)
    ∧ (∀ (e : String) (ctx : HElibContext),
        helib_generate_secret_key (Except.error e) (some ctx) = none)
    ∧ (∀ (e : String) (pm md : Nat) (s : String),
        openfhe_create_bfv_context (Except.error e) pm md s
          = (none, "Failed to create context: " ++ e)
        ∧ "Failed to create context: " ++ e ≠ "")
    ∧ (∀ (e : String) (c : OpenFHEContext) (s : String),
        openfhe_generate_keypair (Except.error e) (some c) s
          = (none, some c, "Failed to generate keys: " ++ e)
        ∧ "Failed to generate keys: " ++ e ≠ "")
    ∧ (∀ (e : String) (hex : String),
        seal_create_plaintext (fun _ => Except.error e) (some hex)
          = COutcome.ret none)
    ∧ (∀ (e : String) (enc : SEALBatchEncoder) (p : SEALPlaintext) (cap : Nat),
        seal_batch_decode (fun _ => Except.error e) (some enc) (some p) true (some cap)
          = some ([], 0)) := by
  refine ⟨fun e m p r => rfl, fun e ctx => rfl,
          fun e pm md s => ⟨rfl, appendNeEmpty _ e (by decide)⟩,
          fun e c s => ⟨rfl, appendNeEmpty _ e (by decide)⟩,
          fun e hex => rfl, fun e enc p cap => rfl⟩

/-- Claim C3 (witness for the amended theorem): concrete instances of the
error-conversion equations. -/
theorem c3_boundary_conversion_witness :
    helib_create_context (Except.error ("build failed")) 4096 4999 1 = none
    ∧ openfhe_create_bfv_context (Except.error ("bad params")) 65537 2 "prev"
        = (none, "Failed to create context: " ++ "bad params") :=
  ⟨c3_boundary_conversion_amended.1 "build failed" 4096 4999 1,
   (c3_boundary_conversion_amended.2.2.1 "bad params" 65537 2 "prev").1⟩

/-- Claim C4 (counterexample): `seal_create_plaintext` has no null check;
a NULL `hex_string` is passed straight into the native
`Plaintext(std::string)` constructor (undefined behavior), instead of
being detected and short-circuited to the failure value. -/
theorem c4_null_check_counterexample :
    seal_create_plaintext (fun _ => Except.error ("parse error")) none = COutcome.ub
    ∧ (COutcome.ub : COutcome (Option SEALPlaintext)) ≠ COutcome.ret none :=
  ⟨rfl, by decide⟩

/-- Claim C4 (amended): every boundary function that null-checks its
required handle/pointer arguments short-circuits to the failure value
before any native call (the result is the failure value for every native
oracle) — but `seal_create_plaintext` passes its required `hex_string`
pointer to the native library without any check. -/
theorem c4_null_short_circuit_amended :
    (∀ (v : Option (List Int)) (s : String),
        openfhe_create_plaintext none v s = (none, "Invalid parameters"))
    ∧ (∀ (c : OpenFHEContext) (s : String),
        openfhe_create_plaintext (some c) none s = (none, "Invalid parameters"))
    ∧ (∀ (g : Except String OpenFHEKeyPair) (s : String),
        openfhe_generate_keypair g none s = (none, none, "Invalid context"))
    ∧ (∀ v : Option (List Int), seal_batch_encode none v = none)
    ∧ (∀ enc : SEALBatchEncoder, seal_batch_encode (some enc) none = none)
    ∧ (∀ (d : SEALPlaintext → Except String (List Int)) (p : Option SEALPlaintext)
         (b : Bool) (cap : Option Nat),
        seal_batch_decode d none p b cap = none)
    ∧ (∀ (b : List Nat) (n : Nat), seal_create_encryptor none b n = none)
    ∧ (∀ (b : List Nat) (n : Nat), seal_create_decryptor none b n = none)
    ∧ (∀ g : Except String Nat, helib_generate_secret_key g none = none)
    ∧ helib_get_public_key none = none := by
  refine ⟨fun v s => ?_, fun c s => rfl, fun g s => rfl, fun v => ?_,
          fun enc => rfl, fun d p b cap => ?_, fun b n => rfl, fun b n => rfl,
          fun g => rfl, rfl⟩
  · cases v <;> rfl
  · rfl
  · cases p <;> cases b <;> cases cap <;> rfl

/-- Claim C5 (counterexample): `openfhe_destroy_context` is a boundary
call that never touches the last-error slot: destroying a live context
(a successful call) leaves a stale non-empty message in place instead of
clearing it. -/
theorem c5_last_error_counterexample :
    (openfhe_destroy_context (some 0) ofCtxHeap1 ("Invalid context")).1
        = COutcome.ret (Heap.free ofCtxHeap1 0)
    ∧ (openfhe_destroy_context (some 0) ofCtxHeap1 ("Invalid context")).2
        = "Invalid context"
    ∧ ("Invalid context" : String) ≠ "" :=
  ⟨rfl, rfl, by decide⟩

/-- Claim C5 (amended): every fallible OpenFHE boundary call overwrites
the per-thread last-error string — success clears it to `""`, failure
sets a non-empty descriptive message — and `openfhe_get_last_error`
returns the current value; the destroy functions (and the query itself)
leave the slot unchanged. -/
theorem c5_last_error_amended :
    (∀ s : String, openfhe_get_last_error s = s)
    ∧ (∀ (p : Option Nat) (h : Heap OpenFHEContext) (s : String),
        (openfhe_destroy_context p h s).2 = s)
    ∧ (∀ (p : Option Nat) (h : Heap OpenFHEKeyPair) (s : String),
        (openfhe_destroy_keypair p h s).2 = s)
    ∧ (∀ (p : Option Nat) (h : Heap OpenFHEPlaintext) (s : String),
        (openfhe_destroy_plaintext p h s).2 = s)
    ∧ (∀ (slots pm md : Nat) (s : String),
        (openfhe_create_bfv_context (Except.ok slots) pm md s).2 = "")
    ∧ (∀ (e : String) (pm md : Nat) (s : String),
        (openfhe_create_bfv_context (Except.error e) pm md s).2
          = "Failed to create context: " ++ e
        ∧ "Failed to create context: " ++ e ≠ "")
    ∧ (∀ (kp : OpenFHEKeyPair) (c : OpenFHEContext) (s : String),
        (openfhe_generate_keypair (Except.ok kp) (some c) s).2.2 = "")
    ∧ (∀ (e : String) (c : OpenFHEContext) (s : String),
        (openfhe_generate_keypair (Except.error e) (some c) s).2.2
          = "Failed to generate keys: " ++ e
        ∧ "Failed to generate keys: " ++ e ≠ "")
    ∧ (∀ (g : Except String OpenFHEKeyPair) (s : String),
        (openfhe_generate_keypair g none s).2.2 = "Invalid context"
        ∧ ("Invalid context" : String) ≠ "")
    ∧ (∀ (c : OpenFHEContext) (v : List Int) (s : String),
        (openfhe_create_plaintext (some c) (some v) s).2 = ""
        ∨ ((openfhe_create_plaintext (some c) (some v) s).2 ≠ ""
            ∧ (openfhe_create_plaintext (some c) (some v) s).1 = none))
    ∧ (∀ (p : OpenFHEPlaintext) (cap : Nat) (s : String),
        (openfhe_get_plaintext_values (some p) true (some cap) s).2.2 = "") := by
  refine ⟨fun s => rfl, fun p h s => rfl, fun p h s => rfl, fun p h s => rfl,
          fun slots pm md s => rfl,
          fun e pm md s => ⟨rfl, appendNeEmpty _ e (by decide)⟩,
          fun kp c s => rfl,
          fun e c s => ⟨rfl, appendNeEmpty _ e (by decide)⟩,
          fun g s => ⟨rfl, by decide⟩,
          fun c v s => ?_, fun p cap s => rfl⟩
  · unfold openfhe_create_plaintext
    cases hmk : openfheMakePackedNative c v with
    | ok stored => exact Or.inl (by simp only [hmk])
    | error e =>
        refine Or.inr ⟨?_, ?_⟩
        · simp only [hmk]
          exact appendNeEmpty _ e (by decide)
        · simp only [hmk]

/-- Claim C5 (witness for the amended theorem): concrete instances. -/
theorem c5_last_error_witness :
    openfhe_get_last_error "boo" = "boo"
    ∧ (openfhe_destroy_context none ofCtxHeap1 "stale").2 = "stale"
    ∧ (openfhe_generate_keypair (Except.error ("keygen threw"))
        (some ofContext17) "old").2.2 = "Failed to generate keys: " ++ "keygen threw" :=
  ⟨c5_last_error_amended.1 "boo",
   c5_last_error_amended.2.1 none ofCtxHeap1 "stale",
   (c5_last_error_amended.2.2.2.2.2.2.2.1 "keygen threw" ofContext17 "old").1⟩

/-- Claim C6: every destroy function of the three subsystems, called with
a NULL handle, returns normally (no fault) and leaves the heap — and for
the OpenFHE ones the last-error string — unchanged, any number of
times. -/
theorem c6_destroy_null_noop :
    (∀ h : Heap SEALContextWrapper, seal_destroy_context none h = COutcome.ret h)
    ∧ (∀ h : Heap SEALEncryptor, seal_destroy_encryptor none h = COutcome.ret h)
    ∧ (∀ h : Heap SEALDecryptor, seal_destroy_decryptor none h = COutcome.ret h)
    ∧ (∀ h : Heap SEALBatchEncoder, seal_destroy_batch_encoder none h = COutcome.ret h)
    ∧ (∀ h : Heap Unit, seal_destroy_galois_keys none h = COutcome.ret h)
    ∧ (∀ h : Heap SEALPlaintext, seal_destroy_plaintext none h = COutcome.ret h)
    ∧ (∀ h : Heap SEALCiphertext, seal_destroy_ciphertext none h = COutcome.ret h)
    ∧ (∀ (h : Heap OpenFHEContext) (s : String),
        openfhe_destroy_context none h s = (COutcome.ret h, s))
    ∧ (∀ (h : Heap OpenFHEKeyPair) (s : String),
        openfhe_destroy_keypair none h s = (COutcome.ret h, s))
    ∧ (∀ (h : Heap OpenFHEPlaintext) (s : String),
        openfhe_destroy_plaintext none h s = (COutcome.ret h, s))
    ∧ (∀ h : Heap HElibContext, helib_destroy_context none h = COutcome.ret h)
    ∧ (∀ h : Heap HElibSecretKey, helib_destroy_secret_key none h = COutcome.ret h)
    ∧ (∀ h : Heap HElibPublicKey, helib_destroy_public_key none h = COutcome.ret h)
    ∧ (∀ h : Heap HElibPlaintext, helib_destroy_plaintext none h = COutcome.ret h)
    ∧ (∀ h : Heap HElibCiphertext, helib_destroy_ciphertext none h = COutcome.ret h)
    ∧ (∀ (α : Type) (n : Nat) (h : Heap α),
        iterNull (fun h2 => destroyHandle none h2) n h = COutcome.ret h) := by
  refine ⟨fun _ => rfl, fun _ => rfl, fun _ => rfl, fun _ => rfl, fun _ => rfl,
          fun _ => rfl, fun _ => rfl, fun _ _ => rfl, fun _ _ => rfl, fun _ _ => rfl,
          fun _ => rfl, fun _ => rfl, fun _ => rfl, fun _ => rfl, fun _ => rfl,
          fun α n h => ?_⟩
  induction n with
  | zero => rfl
  | succ k ih => simpa [iterNull, destroyHandle] using ih

/-- Claim C7: each homomorphic operation (add, multiply, subtract,
rotate) on non-null, live operand handles allocates its result at the
fresh address `h.next`, which is distinct from both operand handles, and
the operands' stored contents are unchanged in the resulting heap. -/
theorem c7_arith_fresh_and_frame :
    (∀ (op : SEALCiphertext → SEALCiphertext → Except String SEALCiphertext)
       (c : SEALContextWrapper) (pa pb : Nat) (va vb v : SEALCiphertext)
       (h : Heap SEALCiphertext),
        h.wf = true → h.lookup pa = some va → h.lookup pb = some vb →
        op va vb = Except.ok v →
        seal_add op (some c) (some pa) (some pb) h
            = COutcome.ret (some h.next, (Heap.alloc h v).2)
          ∧ h.next ≠ pa ∧ h.next ≠ pb
          ∧ ((Heap.alloc h v).2).lookup pa = some va
          ∧ ((Heap.alloc h v).2).lookup pb = some vb)
    ∧ (∀ (op : SEALCiphertext → SEALCiphertext → Except String SEALCiphertext)
         (c : SEALContextWrapper) (pa pb : Nat) (va vb v : SEALCiphertext)
         (h : Heap SEALCiphertext),
        h.wf = true → h.lookup pa = some va → h.lookup pb = some vb →
        op va vb = Except.ok v →
        seal_multiply op (some c) (some pa) (some pb) h
            = COutcome.ret (some h.next, (Heap.alloc h v).2)
          ∧ h.next ≠ pa ∧ h.next ≠ pb
          ∧ ((Heap.alloc h v).2).lookup pa = some va
          ∧ ((Heap.alloc h v).2).lookup pb = some vb)
    ∧ (∀ (rot : Int → SEALCiphertext → Except String SEALCiphertext)
         (c : SEALContextWrapper) (pc : Nat) (steps : Int)
         (vc v : SEALCiphertext) (h : Heap SEALCiphertext),
        h.wf = true → h.lookup pc = some vc → rot steps vc = Except.ok v →
        seal_rotate_rows rot (some c) (some pc) steps (some ()) h
            = COutcome.ret (some h.next, (Heap.alloc h v).2)
          ∧ h.next ≠ pc
          ∧ ((Heap.alloc h v).2).lookup pc = some vc)
    ∧ (∀ (op : HElibCiphertext → HElibCiphertext → Except String HElibCiphertext)
         (pa pb : Nat) (va vb v : HElibCiphertext) (h : Heap HElibCiphertext),
        h.wf = true → h.lookup pa = some va → h.lookup pb = some vb →
        op va vb = Except.ok v →
        helib_add op (some pa) (some pb) h
            = COutcome.ret (some h.next, (Heap.alloc h v).2)
          ∧ h.next ≠ pa ∧ h.next ≠ pb
          ∧ ((Heap.alloc h v).2).lookup pa = some va
          ∧ ((Heap.alloc h v).2).lookup pb = some vb)
    ∧ (∀ (op : HElibCiphertext → HElibCiphertext → Except String HElibCiphertext)
         (pa pb : Nat) (va vb v : HElibCiphertext) (h : Heap HElibCiphertext),
        h.wf = true → h.lookup pa = some va → h.lookup pb = some vb →
        op va vb = Except.ok v →
        helib_multiply op (some pa) (some pb) h
            = COutcome.ret (some h.next, (Heap.alloc h v).2)
          ∧ h.next ≠ pa ∧ h.next ≠ pb
          ∧ ((Heap.alloc h v).2).lookup pa = some va
          ∧ ((Heap.alloc h v).2).lookup pb = some vb)
    ∧ (∀ (op : HElibCiphertext → HElibCiphertext → Except String HElibCiphertext)
         (pa pb : Nat) (va vb v : HElibCiphertext) (h : Heap HElibCiphertext),
        h.wf = true → h.lookup pa = some va → h.lookup pb = some vb →
        op va vb = Except.ok v →
        helib_subtract op (some pa) (some pb) h
            = COutcome.ret (some h.next, (Heap.alloc h v).2)
          ∧ h.next ≠ pa ∧ h.next ≠ pb
          ∧ ((Heap.alloc h v).2).lookup pa = some va
          ∧ ((Heap.alloc h v).2).lookup pb = some vb) := by
  refine ⟨fun op c pa pb va vb v h hwf ha hb hop =>
            binOpFresh_frame op ⟨[]⟩ pa pb va vb v h hwf ha hb hop,
          fun op c pa pb va vb v h hwf ha hb hop =>
            binOpFresh_frame op ⟨[]⟩ pa pb va vb v h hwf ha hb hop,
          fun rot c pc steps vc v h hwf hc hrot => ?_,
          fun op pa pb va vb v h hwf ha hb hop =>
            binOpFresh_frame op ⟨[]⟩ pa pb va vb v h hwf ha hb hop,
          fun op pa pb va vb v h hwf ha hb hop =>
            binOpFresh_frame op ⟨[]⟩ pa pb va vb v h hwf ha hb hop,
          fun op pa pb va vb v h hwf ha hb hop =>
            binOpFresh_frame op ⟨[]⟩ pa pb va vb v h hwf ha hb hop⟩
  have hpc := Heap.lookup_lt_next h pc vc hwf hc
  refine ⟨?_, by omega, ?_⟩
  · simp only [seal_rotate_rows, hc, hrot]
  · rw [Heap.lookup_alloc_ne h v pc (by omega)]; exact hc

/-- Claim C7 (witness): concrete instances of all six operations on a
two-ciphertext heap. -/
theorem c7_arith_witness :
    (seal_add (fun _ _ => Except.ok ⟨[3]⟩) (some sealCtx0) (some 0) (some 1) ctHeap2
        = COutcome.ret (some ctHeap2.next, (Heap.alloc ctHeap2 ⟨[3]⟩).2)
      ∧ ctHeap2.next ≠ 0 ∧ ctHeap2.next ≠ 1
      ∧ ((Heap.alloc ctHeap2 (⟨[3]⟩ : SEALCiphertext)).2).lookup 0 = some ⟨[1]⟩
      ∧ ((Heap.alloc ctHeap2 (⟨[3]⟩ : SEALCiphertext)).2).lookup 1 = some ⟨[2]⟩)
    ∧ (seal_multiply (fun _ _ => Except.ok ⟨[4]⟩) (some sealCtx0) (some 0) (some 1) ctHeap2
        = COutcome.ret (some ctHeap2.next, (Heap.alloc ctHeap2 ⟨[4]⟩).2)
      ∧ ctHeap2.next ≠ 0 ∧ ctHeap2.next ≠ 1
      ∧ ((Heap.alloc ctHeap2 (⟨[4]⟩ : SEALCiphertext)).2).lookup 0 = some ⟨[1]⟩
      ∧ ((Heap.alloc ctHeap2 (⟨[4]⟩ : SEALCiphertext)).2).lookup 1 = some ⟨[2]⟩)
    ∧ (seal_rotate_rows (fun _ _ => Except.ok ⟨[5]⟩) (some sealCtx0) (some 0) 1 (some ()) ctHeap2
        = COutcome.ret (some ctHeap2.next, (Heap.alloc ctHeap2 ⟨[5]⟩).2)
      ∧ ctHeap2.next ≠ 0
      ∧ ((Heap.alloc ctHeap2 (⟨[5]⟩ : SEALCiphertext)).2).lookup 0 = some ⟨[1]⟩)
    ∧ (helib_add (fun _ _ => Except.ok ⟨[3]⟩) (some 0) (some 1) helibCtHeap2
        = COutcome.ret (some helibCtHeap2.next, (Heap.alloc helibCtHeap2 ⟨[3]⟩).2)
      ∧ helibCtHeap2.next ≠ 0 ∧ helibCtHeap2.next ≠ 1
      ∧ ((Heap.alloc helibCtHeap2 (⟨[3]⟩ : HElibCiphertext)).2).lookup 0 = some ⟨[1]⟩
      ∧ ((Heap.alloc helibCtHeap2 (⟨[3]⟩ : HElibCiphertext)).2).lookup 1 = some ⟨[2]⟩)
    ∧ (helib_multiply (fun _ _ => Except.ok ⟨[4]⟩) (some 0) (some 1) helibCtHeap2
        = COutcome.ret (some helibCtHeap2.next, (Heap.alloc helibCtHeap2 ⟨[4]⟩).2)
      ∧ helibCtHeap2.next ≠ 0 ∧ helibCtHeap2.next ≠ 1
      ∧ ((Heap.alloc helibCtHeap2 (⟨[4]⟩ : HElibCiphertext)).2).lookup 0 = some ⟨[1]⟩
      ∧ ((Heap.alloc helibCtHeap2 (⟨[4]⟩ : HElibCiphertext)).2).lookup 1 = some ⟨[2]⟩)
    ∧ (helib_subtract (fun _ _ => Except.ok ⟨[5]⟩) (some 0) (some 1) helibCtHeap2
        = COutcome.ret (some helibCtHeap2.next, (Heap.alloc helibCtHeap2 ⟨[5]⟩).2)
      ∧ helibCtHeap2.next ≠ 0 ∧ helibCtHeap2.next ≠ 1
      ∧ ((Heap.alloc helibCtHeap2 (⟨[5]⟩ : HElibCiphertext)).2).lookup 0 = some ⟨[1]⟩
      ∧ ((Heap.alloc helibCtHeap2 (⟨[5]⟩ : HElibCiphertext)).2).lookup 1 = some ⟨[2]⟩) :=
  ⟨c7_arith_fresh_and_frame.1 (fun _ _ => Except.ok ⟨[3]⟩) sealCtx0 0 1
      ⟨[1]⟩ ⟨[2]⟩ ⟨[3]⟩ ctHeap2 rfl rfl rfl rfl,
   c7_arith_fresh_and_frame.2.1 (fun _ _ => Except.ok ⟨[4]⟩) sealCtx0 0 1
      ⟨[1]⟩ ⟨[2]⟩ ⟨[4]⟩ ctHeap2 rfl rfl rfl rfl,
   c7_arith_fresh_and_frame.2.2.1 (fun _ _ => Except.ok ⟨[5]⟩) sealCtx0 0 1
      ⟨[1]⟩ ⟨[5]⟩ ctHeap2 rfl rfl rfl,
   c7_arith_fresh_and_frame.2.2.2.1 (fun _ _ => Except.ok ⟨[3]⟩) 0 1
      ⟨[1]⟩ ⟨[2]⟩ ⟨[3]⟩ helibCtHeap2 rfl rfl rfl rfl,
   c7_arith_fresh_and_frame.2.2.2.2.1 (fun _ _ => Except.ok ⟨[4]⟩) 0 1
      ⟨[1]⟩ ⟨[2]⟩ ⟨[4]⟩ helibCtHeap2 rfl rfl rfl rfl,
   c7_arith_fresh_and_frame.2.2.2.2.2 (fun _ _ => Except.ok ⟨[5]⟩) 0 1
      ⟨[1]⟩ ⟨[2]⟩ ⟨[5]⟩ helibCtHeap2 rfl rfl rfl rfl⟩

/-- Claim C8: a successful key-generation call registers
multiplication-enabling key material as a side effect —
`openfhe_generate_keypair` runs `EvalMultKeyGen` binding eval-mult keys
into the context's evaluation state, and `helib_generate_secret_key`
runs `addSome1DMatrices` attaching key-switching matrices to the secret
key — so a subsequent multiply does not fail for lack of evaluation
keys. -/
theorem c8_keygen_registers_mult_keys :
    (∀ (kp : OpenFHEKeyPair) (c : OpenFHEContext) (s : String),
        openfhe_generate_keypair (Except.ok kp) (some c) s
          = (some kp, some { c with evalMultKeysRegistered := true }, "")
        ∧ openfheEvalMultKeysAvailable { c with evalMultKeysRegistered := true } = true)
    ∧ (∀ (k : Nat) (ctx : HElibContext),
        helib_generate_secret_key (Except.ok k) (some ctx) = some ⟨k, true⟩
        ∧ helibMultKeysAvailable ⟨k, true⟩ = true) :=
  ⟨fun kp c s => ⟨rfl, rfl⟩, fun k ctx => ⟨rfl, rfl⟩⟩

/-- Claim C9: `seal_create_encryptor` and `seal_create_decryptor` ignore
their key-byte-array and size arguments entirely — the result is the
same for any two choices of those arguments, and on a non-null context
it is built from the keys stored in the context at creation time. -/
theorem c9_create_ignores_key_bytes :
    (∀ (ctx : Option SEALContextWrapper) (b1 : List Nat) (n1 : Nat)
       (b2 : List Nat) (n2 : Nat),
        seal_create_encryptor ctx b1 n1 = seal_create_encryptor ctx b2 n2)
    ∧ (∀ (ctx : Option SEALContextWrapper) (b1 : List Nat) (n1 : Nat)
         (b2 : List Nat) (n2 : Nat),
        seal_create_decryptor ctx b1 n1 = seal_create_decryptor ctx b2 n2)
    ∧ (∀ (c : SEALContextWrapper) (b : List Nat) (n : Nat),
        seal_create_encryptor (some c) b n = some ⟨c.public_key⟩
        ∧ seal_create_decryptor (some c) b n = some ⟨c.secret_key⟩) := by
  refine ⟨fun ctx b1 n1 b2 n2 => ?_, fun ctx b1 n1 b2 n2 => ?_,
          fun c b n => ⟨rfl, rfl⟩⟩
  · cases ctx <;> rfl
  · cases ctx <;> rfl

/-- Claim C10: `helib_create_plaintext` stores exactly the given value,
never reads its context argument (any context, including NULL, gives the
same non-null handle), and `helib_plaintext_to_long` returns that value
unchanged. -/
theorem c10_helib_plaintext_identity :
    (∀ (ctx : Option HElibContext) (v : Int),
        helib_create_plaintext ctx v = some ⟨v⟩)
    ∧ (∀ (ctx ctx2 : Option HElibContext) (v : Int),
        helib_create_plaintext ctx v = helib_create_plaintext ctx2 v)
    ∧ (∀ (ctx : Option HElibContext) (v : Int),
        helib_plaintext_to_long (helib_create_plaintext ctx v) = v) :=
  ⟨fun _ _ => rfl, fun _ _ _ => rfl, fun _ _ => rfl⟩

end HEWrap
